import Mathlib

/-!
Verification development for the `dataprocessing` package: a tabular-dataset
query layer (projection into an embedded relational engine plus a query
executor) and a live polling layer (bounded FIFO buffers, a stream registry
and a connection manager).  The repository's visible material is examples and
packaging; the core operations are modelled from the specification, each such
definition carrying a doc comment that says so.
-/

namespace DataProcess

/-- A cell value of a Tabular Dataset: integer, string, boolean or null
(the spec's float and timestamp kinds play no role in the claims and are
represented by the string kind here). -/
inductive Value where
  | intV : Int → Value
  | strV : String → Value
  | boolV : Bool → Value
  | nullV : Value
deriving DecidableEq, Repr

/-- A row: the cell values in column order. -/
abbrev Row := List Value

/-- Tabular Dataset: an ordered list of column names and an ordered list of
rows. -/
structure Dataset where
  columns : List String
  rows : List Row
deriving DecidableEq, Repr

/-- Error taxonomy of the query layer. -/
inductive DPError where
  | projectionError : DPError
  | queryError : String → DPError
deriving DecidableEq, Repr

/-- A projected relational table inside the embedded engine: the spec's §4.1
invariant is that it mirrors the source dataset exactly at projection time. -/
structure Table where
  columns : List String
  rows : List Row
deriving DecidableEq, Repr

/-- An engine result set: the engine's declared result columns together with
the result rows (the declared columns are present even when no rows are). -/
structure EngineResult where
  columns : List String
  rows : List Row
deriving DecidableEq, Repr

/-- Modelled from the spec: `project(dataset) -> handle` (§4.1, missing from
the repository together with the whole package core).  It materializes the
dataset into a table under the fixed logical name `data`, mirroring rows and
columns exactly, and fails with `ProjectionError` when the dataset has zero
columns. -/
def project (d : Dataset) : Except DPError Table :=
  if d.columns = [] then .error .projectionError
  else .ok ⟨d.columns, d.rows⟩

/-- Modelled from the spec: the conversion step of `execute` (§4.2, missing
from the repository).  An engine error surfaces as `QueryError` with the
original message; a result set converts to a Tabular Dataset preserving the
engine's declared column order, with empty result sets yielding a zero-row
dataset rather than an error. -/
def execute (res : Except String EngineResult) : Except DPError Dataset :=
  match res with
  | .error m => .error (.queryError m)
  | .ok r => .ok ⟨r.columns, r.rows⟩

/-- The black-box embedded relational engine, seen only through its
interface: a table and a query text give an engine result or an error. -/
abbrev Engine := Table → String → Except String EngineResult

/-- Modelled from the spec: the embedded engine's behaviour on
`SELECT * FROM data` (the engine itself is an external black box).  A
select-all returns every row of the projected table, with the table's
columns as the declared result columns, in order. -/
def selectAllEngine : Engine := fun t _ => .ok ⟨t.columns, t.rows⟩

/-- Modelled from the spec: `sql(dataset, query_text)` as the thin facade
over projection and execution (§6, missing from the repository). -/
def datasetSql (engine : Engine) (d : Dataset) (q : String) :
    Except DPError Dataset :=
  match project d with
  | .error e => .error e
  | .ok t => execute (engine t q)

/-- The select-all round trip: `sql(D, "SELECT * FROM data")`. -/
def sqlStar (d : Dataset) : Except DPError Dataset :=
  datasetSql selectAllEngine d "SELECT * FROM data"

/-- A Poller's running state. -/
inductive RunState where
  | idle
  | running
  | stopped
deriving DecidableEq, Repr

/-- The state of one Poller: its configuration (name, poll interval, maximum
retained record count, column names) and its mutable part (buffer, running
state, last error). -/
structure PollerState where
  name : String
  interval : ℚ
  maxRecords : Nat
  cols : List String
  buffer : List Row
  pstate : RunState
  lastError : Option String
deriving DecidableEq, Repr

/-- Modelled from the spec: FIFO eviction (§4.4, missing from the
repository).  While the buffer is longer than the bound, the oldest entry is
evicted from the head. -/
def evict (k : Nat) : List Row → List Row
  | [] => []
  | x :: t => if t.length < k then x :: t else evict k t

/-- Events of a Poller's trace.  Each tick is one event: the append of a
whole tick's rows is atomic with respect to snapshot reads (§4.4/§5), so a
trace interleaves complete ticks, lifecycle calls and snapshot reads, never
half a tick. -/
inductive Event where
  | startE
  | stopE
  | tickOk : List Row → Event
  | tickErr : String → Event
deriving DecidableEq, Repr

/-- Modelled from the spec: the Poller transition function (§4.4, missing
from the repository).  `start` moves idle to running; `stop` moves running to
stopped and, because it blocks until the in-flight tick completes and the
repetition is cancelled, no tick event can mutate the state afterwards; a
successful tick appends its rows at the tail and evicts from the head back to
the bound; a failed tick records `last-error`, leaves the buffer alone and
keeps the loop running. -/
def step (s : PollerState) (e : Event) : PollerState :=
  match e with
  | .startE => if s.pstate = .idle then { s with pstate := .running } else s
  | .stopE => if s.pstate = .running then { s with pstate := .stopped } else s
  | .tickOk rows =>
      if s.pstate = .running then
        { s with buffer := evict s.maxRecords (s.buffer ++ rows) }
      else s
  | .tickErr m =>
      if s.pstate = .running then { s with lastError := some m } else s

/-- Run a Poller through a finite trace of events. -/
def run (s : PollerState) : List Event → PollerState
  | [] => s
  | e :: es => run (step s e) es

/-- Modelled from the spec: `get_latest_data()` (§4.4, missing from the
repository) returns a Tabular Dataset copy of the current buffer contents. -/
def getLatestData (s : PollerState) : Dataset :=
  ⟨s.cols, s.buffer⟩

/-- A freshly started producer-backed Poller with bound `k`: empty buffer,
running. -/
def mkRunningPoller (k : Nat) (cols : List String) : PollerState :=
  { name := "", interval := 1, maxRecords := k, cols := cols,
    buffer := [], pstate := .running, lastError := none }

/-- Creation-time error taxonomy of the live layer. -/
inductive CreateError where
  | pollerConfigError : CreateError
  | duplicateStreamError : CreateError
deriving DecidableEq, Repr

/-- Modelled from the spec: the default retained-record bound used when
`max_records` is omitted from `create_live_stream` (§6 marks the parameter
optional; the concrete default of the missing core is unknown, so it is
modelled as a fixed positive constant). -/
def defaultMaxRecords : Nat := 1000

/-- Modelled from the spec: `create_live_stream(dataset, interval,
max_records?)` (§6, missing from the repository).  An interval ≤ 0 fails
synchronously with `PollerConfigError`; otherwise the Poller is registered
idle, with the dataset's columns and rows as its initial snapshot (bounded by
the retained-record bound) and with `max_records` defaulting when omitted. -/
def createLiveStream (d : Dataset) (interval : ℚ) (maxRecords : Option Nat) :
    Except CreateError PollerState :=
  if interval ≤ 0 then .error .pollerConfigError
  else
    let k := maxRecords.getD defaultMaxRecords
    .ok { name := "", interval := interval, maxRecords := k,
          cols := d.columns, buffer := evict k d.rows,
          pstate := .idle, lastError := none }

/-- The dataset-style accessors the returned stream object itself exposes:
`header` reads the stored column names. -/
def PollerState.header (s : PollerState) : List String := s.cols

/-- The `shape` accessor reads the current buffer length and column count,
as `(rows, columns)`. -/
def PollerState.shape (s : PollerState) : Nat × Nat :=
  (s.buffer.length, s.cols.length)

/-- The `sql` accessor on the stream object queries the current buffer
contents directly. -/
def PollerState.sqlQ (engine : Engine) (s : PollerState) (q : String) :
    Except DPError Dataset :=
  datasetSql engine ⟨s.cols, s.buffer⟩ q

/-- One entry of the Live Stream Registry. -/
structure RegEntry where
  sname : String
  poller : PollerState
deriving DecidableEq, Repr

/-- The Live Stream Registry: named Pollers, registration order kept. -/
abbrev Registry := List RegEntry

/-- Look a stream up by name. -/
def lookupStream (reg : Registry) (n : String) : Option PollerState :=
  match reg with
  | [] => none
  | e :: rest => if e.sname = n then some e.poller else lookupStream rest n

/-- Whether the registry already holds a stream under the name. -/
def hasStream (reg : Registry) (n : String) : Bool :=
  (lookupStream reg n).isSome

/-- Modelled from the spec: `create_stream(name, producer, interval,
max_records)` of the registry (§4.5, missing from the repository).  It fails
with `DuplicateStreamError` when the name already exists, leaving the
registry untouched; an interval ≤ 0 fails with `PollerConfigError`;
otherwise a new idle Poller is registered under the name. -/
def createStream (reg : Registry) (n : String) (interval : ℚ) (k : Nat)
    (cols : List String) : Except CreateError PollerState × Registry :=
  if hasStream reg n then (.error .duplicateStreamError, reg)
  else if interval ≤ 0 then (.error .pollerConfigError, reg)
  else
    let p : PollerState :=
      { name := n, interval := interval, maxRecords := k, cols := cols,
        buffer := [], pstate := .idle, lastError := none }
    (.ok p, reg ++ [⟨n, p⟩])

/-- A tracked external connection: its name, whether it is already closed,
and whether the underlying session's close operation would fail. -/
structure Connection where
  cname : String
  closed : Bool
  closeFails : Bool
deriving DecidableEq, Repr

/-- Modelled from the spec: closing one connection (§4.3, missing from the
repository).  Closing an already-closed connection is an idempotent success;
otherwise the underlying close either succeeds, marking the connection
closed, or fails, reporting an error for it. -/
def closeConn (c : Connection) : Connection × Option String :=
  if c.closed then (c, none)
  else if c.closeFails then (c, some c.cname)
  else ({ c with closed := true }, none)

/-- The outcome of `close_all`: the connections after the attempts, and the
collected individual errors. -/
structure CloseAllResult where
  conns : List Connection
  errors : List String
deriving DecidableEq, Repr

/-- Modelled from the spec: `close_all()` (§4.3, missing from the
repository).  Every tracked connection is attempted; individual failures are
collected, never stopping the sweep. -/
def closeAll (cs : List Connection) : CloseAllResult :=
  match cs with
  | [] => ⟨[], []⟩
  | c :: rest =>
      let r := closeAll rest
      match closeConn c with
      | (c1, none) => ⟨c1 :: r.conns, r.errors⟩
      | (c1, some m) => ⟨c1 :: r.conns, m :: r.errors⟩

/-- The aggregate error `close_all` reports: present exactly when at least
one individual close failed. -/
def aggregateError (r : CloseAllResult) : Option (List String) :=
  if r.errors = [] then none else some r.errors

/-! ### Helper lemmas -/

theorem evict_length (k : Nat) (l : List Row) :
    (evict k l).length = min l.length k := by
  induction l with
  | nil => simp [evict]
  | cons x t ih =>
    simp only [evict]
    by_cases h : t.length < k
    · rw [if_pos h]
      simp only [List.length_cons]
      omega
    · rw [if_neg h, ih]
      simp only [List.length_cons]
      omega

theorem evict_of_le (k : Nat) (l : List Row) (h : l.length ≤ k) :
    evict k l = l := by
  cases l with
  | nil => rfl
  | cons x t =>
    simp only [evict]
    rw [if_pos]
    simp only [List.length_cons] at h
    omega

theorem evict_eq_drop (k : Nat) (l : List Row) :
    evict k l = l.drop (l.length - k) := by
  induction l with
  | nil => simp [evict]
  | cons x t ih =>
    simp only [evict]
    by_cases h : t.length < k
    · rw [if_pos h]
      have h0 : (x :: t).length - k = 0 := by
        simp only [List.length_cons]; omega
      rw [h0, List.drop_zero]
    · rw [if_neg h, ih]
      have heq : (x :: t).length - k = (t.length - k) + 1 := by
        simp only [List.length_cons]; omega
      rw [heq, List.drop_succ_cons]

theorem evict_evict_append (k : Nat) (xs ys : List Row) :
    evict k (evict k xs ++ ys) = evict k (xs ++ ys) := by
  induction xs with
  | nil => rfl
  | cons x t ih =>
    by_cases h : t.length < k
    · have hx : evict k (x :: t) = x :: t := by
        simp only [evict]; rw [if_pos h]
      rw [hx]
    · have hx : evict k (x :: t) = evict k t := by
        simp only [evict]; rw [if_neg h]
      rw [hx, ih, List.cons_append]
      have hy : ¬ (t ++ ys).length < k := by
        rw [List.length_append]; omega
      have hr : evict k (x :: (t ++ ys)) = evict k (t ++ ys) := by
        simp only [evict]; rw [if_neg hy]
      rw [hr]

theorem step_maxRecords (s : PollerState) (e : Event) :
    (step s e).maxRecords = s.maxRecords := by
  cases e <;> simp only [step] <;> split <;> rfl

theorem step_cols (s : PollerState) (e : Event) :
    (step s e).cols = s.cols := by
  cases e <;> simp only [step] <;> split <;> rfl

theorem step_buffer_le (s : PollerState) (e : Event)
    (h : s.buffer.length ≤ s.maxRecords) :
    (step s e).buffer.length ≤ s.maxRecords := by
  cases e <;> simp only [step] <;> split
  · exact h
  · exact h
  · exact h
  · exact h
  · rw [evict_length]; omega
  · exact h
  · exact h
  · exact h

theorem run_buffer_le (es : List Event) (s : PollerState)
    (h : s.buffer.length ≤ s.maxRecords) :
    (run s es).buffer.length ≤ s.maxRecords := by
  induction es generalizing s with
  | nil => exact h
  | cons e es ih =>
    rw [run]
    have hm := step_maxRecords s e
    have hb := step_buffer_le s e h
    have := ih (step s e) (by rw [hm]; exact hb)
    rw [hm] at this
    exact this

theorem step_stopped (s : PollerState) (e : Event) (h : s.pstate = .stopped) :
    step s e = s := by
  cases e <;> simp [step, h]

theorem run_stopped (s : PollerState) (es : List Event)
    (h : s.pstate = .stopped) : run s es = s := by
  induction es with
  | nil => rfl
  | cons e es ih => rw [run, step_stopped s e h]; exact ih

theorem run_ticks (k : Nat) (rss : List (List Row)) (s : PollerState)
    (hrun : s.pstate = .running) (hmax : s.maxRecords = k)
    (hbuf : s.buffer.length ≤ k) :
    run s (rss.map Event.tickOk) =
      { s with buffer := evict k (s.buffer ++ rss.flatten) } := by
  induction rss generalizing s with
  | nil =>
    simp only [List.map_nil, List.flatten_nil, List.append_nil, run]
    rw [evict_of_le k s.buffer hbuf]
  | cons rs rest ih =>
    simp only [List.map_cons, run]
    have hstep : step s (.tickOk rs) =
        { s with buffer := evict k (s.buffer ++ rs) } := by
      simp only [step]
      rw [if_pos hrun, hmax]
    rw [hstep]
    rw [ih { s with buffer := evict k (s.buffer ++ rs) } hrun hmax
      (by simp only [evict_length]; omega)]
    simp only [List.flatten_cons]
    rw [evict_evict_append, List.append_assoc]

theorem closeAll_conns (cs : List Connection) :
    (closeAll cs).conns = cs.map (fun c =>
      if c.closed = false ∧ c.closeFails = false then { c with closed := true }
      else c) := by
  induction cs with
  | nil => rfl
  | cons c rest ih =>
    cases hcl : c.closed <;> cases hcf : c.closeFails <;>
      simp [closeAll, closeConn, hcl, hcf, ih]

theorem closeAll_errors (cs : List Connection) :
    (closeAll cs).errors =
      (cs.filter fun c => !c.closed && c.closeFails).map (fun c => c.cname) := by
  induction cs with
  | nil => rfl
  | cons c rest ih =>
    cases hcl : c.closed <;> cases hcf : c.closeFails <;>
      simp [closeAll, closeConn, hcl, hcf, ih]

theorem flatten_map_singleton (ps : List Row) :
    (ps.map fun r => ([r] : List Row)).flatten = ps := by
  induction ps with
  | nil => rfl
  | cons a t ih => simp only [List.map_cons, List.flatten_cons,
      List.singleton_append, ih]

/-! ### Claim theorems -/

/-- C1: a Poller created with maximum retained record count `k ≥ 1` holds at
most `k` buffered records after any finite sequence of ticks; appends go to
the tail with strict FIFO eviction from the head, so after at least `k`
single-record ticks the buffer is exactly the `k` most recently produced
records, in arrival order (the length-`k` suffix of the production list). -/
theorem poller_fifo_eviction (k : Nat) (_hk : 1 ≤ k) (cols : List String)
    (ps : List Row) :
    (run (mkRunningPoller k cols)
        (ps.map fun r => Event.tickOk [r])).buffer.length ≤ k ∧
    (k ≤ ps.length →
      (run (mkRunningPoller k cols) (ps.map fun r => Event.tickOk [r])).buffer
        = ps.drop (ps.length - k)) := by
  have hmap : (ps.map fun r => Event.tickOk [r])
      = (ps.map fun r => ([r] : List Row)).map Event.tickOk := by
    rw [List.map_map]; rfl
  have hrun := run_ticks k (ps.map fun r => ([r] : List Row))
    (mkRunningPoller k cols) rfl rfl (Nat.zero_le k)
  have hbuf : (run (mkRunningPoller k cols)
      (ps.map fun r => Event.tickOk [r])).buffer = evict k ps := by
    rw [hmap, hrun]
    show evict k ([] ++ (ps.map fun r => ([r] : List Row)).flatten) = evict k ps
    rw [List.nil_append, flatten_map_singleton]
  constructor
  · rw [hbuf, evict_length]; omega
  · intro hkp
    rw [hbuf, evict_eq_drop]

/-- C1 witness: bound 2, three single-record ticks; the buffer holds the two
most recent records in order. -/
theorem poller_fifo_eviction_witness :
    (run (mkRunningPoller 2 ["n"])
        (([[Value.intV 1], [Value.intV 2], [Value.intV 3]] : List Row).map
          fun r => Event.tickOk [r])).buffer.length ≤ 2 ∧
    (2 ≤ ([[Value.intV 1], [Value.intV 2], [Value.intV 3]] : List Row).length →
      (run (mkRunningPoller 2 ["n"])
        (([[Value.intV 1], [Value.intV 2], [Value.intV 3]] : List Row).map
          fun r => Event.tickOk [r])).buffer
        = ([[Value.intV 1], [Value.intV 2], [Value.intV 3]] : List Row).drop
            (([[Value.intV 1], [Value.intV 2], [Value.intV 3]] : List Row).length - 2)) :=
  poller_fifo_eviction 2 (by decide) ["n"]
    [[Value.intV 1], [Value.intV 2], [Value.intV 3]]

/-- C2: once `stop` has taken a running Poller to stopped, no later event of
the trace changes the state at all — in particular no buffer write occurs —
so every `get_latest_data` call after `stop` returns yields the same
snapshot.  The trace order encodes the blocking contract: `stop` returns
only after the in-flight tick's event, so post-stop events are exactly the
events after `stopE` in the trace. -/
theorem stop_blocks_further_writes (s : PollerState) (es : List Event)
    (h : s.pstate = .running) :
    (step s .stopE).pstate = .stopped ∧
    run (step s .stopE) es = step s .stopE ∧
    getLatestData (run (step s .stopE) es) = getLatestData (step s .stopE) := by
  have h1 : (step s .stopE).pstate = .stopped := by simp [step, h]
  refine ⟨h1, run_stopped _ es h1, ?_⟩
  rw [run_stopped _ es h1]

/-- C2 witness: a concrete running Poller, stopped, then offered one more
tick: the state and snapshot stay frozen. -/
theorem stop_blocks_further_writes_witness :
    (step (mkRunningPoller 3 ["a"]) .stopE).pstate = .stopped ∧
    run (step (mkRunningPoller 3 ["a"]) .stopE) [Event.tickOk [[Value.intV 5]]]
      = step (mkRunningPoller 3 ["a"]) .stopE ∧
    getLatestData (run (step (mkRunningPoller 3 ["a"]) .stopE)
        [Event.tickOk [[Value.intV 5]]])
      = getLatestData (step (mkRunningPoller 3 ["a"]) .stopE) :=
  stop_blocks_further_writes (mkRunningPoller 3 ["a"])
    [Event.tickOk [[Value.intV 5]]] rfl

/-- C3 counterexample: on the zero-column Tabular Dataset, `sql` with the
select-all query fails with `ProjectionError` (§4.1) instead of returning an
identical dataset, so the round-trip identity does not hold for every
Tabular Dataset. -/
theorem sqlStar_zero_columns_counterexample :
    sqlStar ⟨[], []⟩ = Except.error DPError.projectionError ∧
    sqlStar ⟨[], []⟩ ≠ Except.ok ⟨[], []⟩ := by
  refine ⟨rfl, ?_⟩
  intro hc
  exact Except.noConfusion hc

/-- C3 (amended): for every Tabular Dataset with at least one column,
`sql(D, "SELECT * FROM data")` returns a dataset with identical row count,
column set and cell values — the dataset itself. -/
theorem sqlStar_roundtrip (d : Dataset) (h : d.columns ≠ []) :
    sqlStar d = Except.ok d := by
  simp only [sqlStar, datasetSql, project]
  rw [if_neg h]
  rfl

/-- C3 witness: the round trip on a concrete one-column dataset. -/
theorem sqlStar_roundtrip_witness :
    sqlStar ⟨["name"], [[Value.strV "Alice"]]⟩
      = Except.ok ⟨["name"], [[Value.strV "Alice"]]⟩ :=
  sqlStar_roundtrip ⟨["name"], [[Value.strV "Alice"]]⟩ (by decide)

/-- C4: `get_latest_data` returns a Tabular Dataset copy of the current
buffer contents, and the buffer a snapshot exposes is always the result of
applying whole ticks — each tick's rows appended atomically — so a snapshot
never reflects a partially-written tick. -/
theorem snapshot_is_dataset_of_whole_ticks (k : Nat) (cols : List String)
    (rss : List (List Row)) :
    getLatestData (run (mkRunningPoller k cols) (rss.map Event.tickOk)) =
      ⟨cols, evict k rss.flatten⟩ ∧
    ∀ s : PollerState, getLatestData s = ⟨s.cols, s.buffer⟩ := by
  constructor
  · rw [run_ticks k rss (mkRunningPoller k cols) rfl rfl (Nat.zero_le k)]
    show Dataset.mk cols (evict k ([] ++ rss.flatten)) = ⟨cols, evict k rss.flatten⟩
    rw [List.nil_append]
  · intro s; rfl

/-- C5: converting an engine result never raises: an empty result set yields
a zero-row Tabular Dataset carrying the declared column names, and every
result converts to a dataset whose column order equals the engine's declared
result column order. -/
theorem execute_empty_and_column_order (r : EngineResult) (h : r.rows = []) :
    execute (Except.ok r) = Except.ok ⟨r.columns, []⟩ ∧
    ∀ r2 : EngineResult, ∃ d : Dataset,
      execute (Except.ok r2) = Except.ok d ∧ d.columns = r2.columns ∧
        d.rows = r2.rows := by
  refine ⟨?_, fun r2 => ⟨⟨r2.columns, r2.rows⟩, rfl, rfl, rfl⟩⟩
  simp only [execute]
  rw [h]

/-- C5 witness: a concrete empty engine result converts to the zero-row
dataset with the declared columns. -/
theorem execute_empty_and_column_order_witness :
    execute (Except.ok (⟨["a"], []⟩ : EngineResult)) = Except.ok ⟨["a"], []⟩ ∧
    ∀ r2 : EngineResult, ∃ d : Dataset,
      execute (Except.ok r2) = Except.ok d ∧ d.columns = r2.columns ∧
        d.rows = r2.rows :=
  execute_empty_and_column_order ⟨["a"], []⟩ rfl

/-- C6: a producer failure on a tick of a running Poller leaves the running
state and the buffer unchanged, records the failure as `last-error`, keeps
`get_latest_data` returning the same snapshot (nothing propagates to
callers), and the loop continues: the next successful tick appends its rows
as usual. -/
theorem tick_error_isolated (s : PollerState) (m : String) (rows : List Row)
    (h : s.pstate = .running) :
    (step s (.tickErr m)).pstate = .running ∧
    (step s (.tickErr m)).buffer = s.buffer ∧
    (step s (.tickErr m)).lastError = some m ∧
    getLatestData (step s (.tickErr m)) = getLatestData s ∧
    step (step s (.tickErr m)) (.tickOk rows) =
      { s with
        lastError := some m
        buffer := evict s.maxRecords (s.buffer ++ rows) } := by
  have h1 : step s (.tickErr m) = { s with lastError := some m } := by
    simp [step, h]
  refine ⟨?_, ?_, ?_, ?_, ?_⟩
  · rw [h1]; exact h
  · rw [h1]
  · rw [h1]
  · rw [h1]; rfl
  · rw [h1]
    simp only [step]
    have h2 : ({ s with lastError := some m } : PollerState).pstate
        = RunState.running := h
    rw [if_pos h2]

/-- C6 witness: a concrete running Poller absorbing one failing tick and one
successful tick. -/
theorem tick_error_isolated_witness :
    (step (mkRunningPoller 2 ["a"]) (.tickErr "boom")).pstate = .running ∧
    (step (mkRunningPoller 2 ["a"]) (.tickErr "boom")).buffer
      = (mkRunningPoller 2 ["a"]).buffer ∧
    (step (mkRunningPoller 2 ["a"]) (.tickErr "boom")).lastError = some "boom" ∧
    getLatestData (step (mkRunningPoller 2 ["a"]) (.tickErr "boom"))
      = getLatestData (mkRunningPoller 2 ["a"]) ∧
    step (step (mkRunningPoller 2 ["a"]) (.tickErr "boom"))
        (.tickOk [[Value.intV 7]]) =
      { mkRunningPoller 2 ["a"] with
        lastError := some "boom"
        buffer := evict (mkRunningPoller 2 ["a"]).maxRecords
          ((mkRunningPoller 2 ["a"]).buffer ++ [[Value.intV 7]]) } :=
  tick_error_isolated (mkRunningPoller 2 ["a"]) "boom" [[Value.intV 7]] rfl

/-- C7: when a name is already registered, a second `create_stream` under
that name fails with `DuplicateStreamError` and leaves the registry — in
particular the Poller first registered under the name, with its state and
buffer — exactly as it was. -/
theorem duplicate_create_stream (reg : Registry) (n : String) (i : ℚ)
    (k : Nat) (cols : List String) (h : hasStream reg n = true) :
    (createStream reg n i k cols).1
      = Except.error CreateError.duplicateStreamError ∧
    (createStream reg n i k cols).2 = reg ∧
    lookupStream (createStream reg n i k cols).2 n = lookupStream reg n := by
  simp only [createStream]
  rw [if_pos h]
  exact ⟨rfl, rfl, rfl⟩

/-- C7 witness: a registry holding one stream named `web_traffic`; a second
creation under the same name fails and the registry is untouched. -/
theorem duplicate_create_stream_witness :
    (createStream [⟨"web_traffic", mkRunningPoller 8 ["page"]⟩]
        "web_traffic" 1 8 ["page"]).1
      = Except.error CreateError.duplicateStreamError ∧
    (createStream [⟨"web_traffic", mkRunningPoller 8 ["page"]⟩]
        "web_traffic" 1 8 ["page"]).2
      = [⟨"web_traffic", mkRunningPoller 8 ["page"]⟩] ∧
    lookupStream (createStream [⟨"web_traffic", mkRunningPoller 8 ["page"]⟩]
        "web_traffic" 1 8 ["page"]).2 "web_traffic"
      = lookupStream [⟨"web_traffic", mkRunningPoller 8 ["page"]⟩]
          "web_traffic" :=
  duplicate_create_stream [⟨"web_traffic", mkRunningPoller 8 ["page"]⟩]
    "web_traffic" 1 8 ["page"] rfl

/-- C8: `close_all` attempts every tracked connection — each open connection
whose close succeeds comes out closed, the rest are unchanged; the collected
errors are exactly one per open connection whose close failed, so an
already-closed connection is an idempotent success contributing no error
(`closeConn` returns it unchanged with no error); and the aggregate error is
reported exactly when at least one close failed. -/
theorem closeAll_best_effort (cs : List Connection) :
    (closeAll cs).conns = cs.map (fun c =>
      if c.closed = false ∧ c.closeFails = false then { c with closed := true }
      else c) ∧
    (closeAll cs).errors =
      (cs.filter fun c => !c.closed && c.closeFails).map (fun c => c.cname) ∧
    (∀ c : Connection, c.closed = true → closeConn c = (c, none)) ∧
    (aggregateError (closeAll cs) = none ↔
      ∀ c ∈ cs, ¬(c.closed = false ∧ c.closeFails = true)) := by
  refine ⟨closeAll_conns cs, closeAll_errors cs, ?_, ?_⟩
  · intro c hc
    simp only [closeConn]
    rw [if_pos hc]
  · simp only [aggregateError, closeAll_errors cs]
    split
    · rename_i hnil
      rw [List.map_eq_nil_iff, List.filter_eq_nil_iff] at hnil
      simp only [true_iff]
      intro c hc hcontra
      exact hnil c hc (by simp [hcontra.1, hcontra.2])
    · rename_i hnn
      rw [List.map_eq_nil_iff, List.filter_eq_nil_iff] at hnn
      push_neg at hnn
      obtain ⟨c, hc, hp⟩ := hnn
      simp only [Bool.not_eq_true, Bool.and_eq_true, Bool.not_eq_false] at hp
      constructor
      · intro hsome; exact Option.noConfusion hsome
      · intro hall
        exact absurd ⟨by simpa using hp.1, hp.2⟩ (hall c hc)

/-- C9: `create_live_stream` with `max_records` omitted succeeds whenever
the interval is positive — the parameter has a default value — and the
resulting stream's buffer never exceeds that default bound, whatever trace
of lifecycle calls and ticks follows. -/
theorem create_default_bounded (d : Dataset) (i : ℚ) (h : 0 < i) :
    ∃ p : PollerState, createLiveStream d i none = Except.ok p ∧
      p.maxRecords = defaultMaxRecords ∧
      ∀ es : List Event, (run p es).buffer.length ≤ defaultMaxRecords := by
  have hni : ¬ i ≤ 0 := not_le.mpr h
  refine ⟨⟨"", i, defaultMaxRecords, d.columns, evict defaultMaxRecords d.rows,
    .idle, none⟩, ?_, rfl, ?_⟩
  · simp only [createLiveStream]
    rw [if_neg hni]
    rfl
  · intro es
    refine run_buffer_le es _ ?_
    show (evict defaultMaxRecords d.rows).length ≤ defaultMaxRecords
    rw [evict_length]
    omega

/-- C9 witness: omitted `max_records` at interval 60 on a concrete
dataset. -/
theorem create_default_bounded_witness :
    ∃ p : PollerState,
      createLiveStream ⟨["x"], [[Value.intV 1]]⟩ 60 none = Except.ok p ∧
      p.maxRecords = defaultMaxRecords ∧
      ∀ es : List Event, (run p es).buffer.length ≤ defaultMaxRecords :=
  create_default_bounded ⟨["x"], [[Value.intV 1]]⟩ 60 (by norm_num)

/-- C10: the object `create_live_stream(dataset, interval)` returns itself
exposes the dataset interface: `.header` is the dataset's column list,
`.shape` is its (row count, column count), and each of `.header`, `.shape`
and `.sql` operates on the Poller's current snapshot — equal to going
through `get_latest_data` — without the caller invoking it first. -/
theorem stream_exposes_dataset_interface (d : Dataset) (i : ℚ) (h : 0 < i)
    (h2 : d.rows.length ≤ defaultMaxRecords) :
    ∃ p : PollerState, createLiveStream d i none = Except.ok p ∧
      p.header = d.columns ∧
      p.shape = (d.rows.length, d.columns.length) ∧
      (∀ engine q, PollerState.sqlQ engine p q
        = datasetSql engine (getLatestData p) q) ∧
      p.header = (getLatestData p).columns ∧
      p.shape = ((getLatestData p).rows.length, (getLatestData p).columns.length)
      := by
  have hni : ¬ i ≤ 0 := not_le.mpr h
  have hev : evict defaultMaxRecords d.rows = d.rows := evict_of_le _ _ h2
  refine ⟨⟨"", i, defaultMaxRecords, d.columns, evict defaultMaxRecords d.rows,
    .idle, none⟩, ?_, rfl, ?_, ?_, rfl, rfl⟩
  · simp only [createLiveStream]
    rw [if_neg hni]
    rfl
  · simp only [PollerState.shape]
    rw [hev]
  · intro engine q
    rfl

/-- C10 witness: a concrete one-row dataset turned into a live stream. -/
theorem stream_exposes_dataset_interface_witness :
    ∃ p : PollerState,
      createLiveStream ⟨["x"], [[Value.intV 1]]⟩ 60 none = Except.ok p ∧
      p.header = ["x"] ∧
      p.shape = (1, 1) ∧
      (∀ engine q, PollerState.sqlQ engine p q
        = datasetSql engine (getLatestData p) q) ∧
      p.header = (getLatestData p).columns ∧
      p.shape = ((getLatestData p).rows.length, (getLatestData p).columns.length)
      :=
  stream_exposes_dataset_interface ⟨["x"], [[Value.intV 1]]⟩ 60 (by norm_num)
    (by decide)

end DataProcess
